import Mathlib

/-
Verification of the MCP client-and-proxy bridge (app.py) against its
natural-language specification.  The Python source is shallowly embedded:
pure fragments become Lean functions, stateful fragments take and return
explicit state, exceptions become Except values, and the child process
stdio streams become explicit lists of lines.
-/

/-! ## String primitives

Python string operations used by the source, re-implemented over lists of
characters so that every definition evaluates inside the kernel.
Keyword tables in the source are plain ASCII, so an ASCII lowercase map
is a faithful model of str.lower for every input they are compared with. -/

/-- ASCII lowercase of one character (model of Python str.lower per char). -/
def lowerChar (c : Char) : Char :=
  if 65 ≤ c.toNat ∧ c.toNat ≤ 90 then Char.ofNat (c.toNat + 32) else c

/-- Model of Python str.lower. -/
def lowerStr (s : String) : String := String.mk (s.toList.map lowerChar)

/-- Whitespace test used by the model of str.strip. -/
def isSpaceChar (c : Char) : Bool := c == ' ' || c == '\t' || c == '\n' || c == '\r'

/-- Model of Python str.strip: drop whitespace from both ends. -/
def pyStrip (s : String) : String :=
  String.mk (((s.toList.dropWhile isSpaceChar).reverse.dropWhile isSpaceChar).reverse)

/-- Helper for substring search: does the needle occur in the haystack? -/
def containsSubAux (n : List Char) : List Char → Bool
  | [] => n.isEmpty
  | c :: rest => n.isPrefixOf (c :: rest) || containsSubAux n rest

/-- Model of the Python expression `needle in hay` on strings (substring test). -/
def containsSub (needle hay : String) : Bool :=
  containsSubAux needle.toList hay.toList

/-! ## JSON values

Minimal JSON value type: enough to express the envelopes and bodies the
source builds and inspects.  Parsing (json.loads) is passed to the models
as a function `String → Except String Json`, standing for the library
parser, whose error carries the exception message. -/

inductive Json where
  | null
  | bool (b : Bool)
  | num (n : Int)
  | str (s : String)
  | arr (elems : List Json)
  | obj (fields : List (String × Json))

/-- Lookup of a key in a JSON object field list (first match wins). -/
def lookupField : List (String × Json) → String → Option Json
  | [], _ => none
  | (k, v) :: rest, key => if k == key then some v else lookupField rest key

/-- Model of Python dict access d[k] / `k in d` on a JSON object. -/
def Json.getField : Json → String → Option Json
  | .obj fields, k => lookupField fields k
  | _, _ => none

/-- Python truthiness of a JSON value (used for `if params:`). -/
def Json.pyTruthy : Json → Bool
  | .null => false
  | .bool b => b
  | .num n => n != 0
  | .str s => !s.toList.isEmpty
  | .arr l => !l.isEmpty
  | .obj l => !l.isEmpty

/-! ## Readiness classifier — MCPClient._check_output_for_indicators
(app.py lines 233-284). -/

/-- Success indicator table of the npx branch (app.py lines 249-255),
in source order, duplicates kept. -/
def npxSuccessIndicators : List String :=
  ["ready", "started", "listening", "server running", "server is running",
   "server is ready", "server started", "mcp server", "initialized",
   "connected", "package installed", "npm", "node_modules", "successfully",
   "running on", "ready to accept connections", "mcp server is running",
   "mcp server is ready", "initialized", "connected", "installed"]

/-- Error indicator table of the npx branch (app.py lines 261-264),
in source order, duplicates kept. -/
def npxErrorIndicators : List String :=
  ["error", "failed", "exception", "crash", "exit", "not found",
   "command failed", "npm error", "error", "failed", "exception", "crash",
   "exit", "not found", "command failed", "npm error"]

/-- Success indicator table of the generic branch (app.py lines 270-273). -/
def genericSuccessIndicators : List String :=
  ["ready", "started", "listening", "server running", "mcp server",
   "initialized", "connected", "installed"]

/-- Error indicator table of the generic branch (app.py line 279). -/
def genericErrorIndicators : List String :=
  ["error", "failed", "exception", "crash", "exit", "not found",
   "command failed", "npm error"]

/-- Success table selected by launch mechanism. -/
def successIndicators (isNpx : Bool) : List String :=
  if isNpx then npxSuccessIndicators else genericSuccessIndicators

/-- Error table selected by launch mechanism. -/
def errorIndicators (isNpx : Bool) : List String :=
  if isNpx then npxErrorIndicators else genericErrorIndicators

/-- Launch-mechanism test (app.py line 247):
`self.command == .npx. or .npx. in . ..join(self.args)`. -/
def joinSpace : List String → String
  | [] => ""
  | [s] => s
  | s :: rest => s ++ " " ++ joinSpace rest

/-- True when the launch uses the npx package runner. -/
def npxMode (command : String) (args : List String) : Bool :=
  command == "npx" || containsSub "npx" (joinSpace args)

/-- MCPClient._check_output_for_indicators (app.py lines 233-284).
Lowercases the line, then in the branch selected by the launch mechanism
tests the success table first, the error table second; some true means a
success indicator matched, some false an error indicator, none neither. -/
def check_output_for_indicators (isNpx : Bool) (output : String) : Option Bool :=
  let output_lower := lowerStr output
  if isNpx then
    if npxSuccessIndicators.any (fun k => containsSub k output_lower) then some true
    else if npxErrorIndicators.any (fun k => containsSub k output_lower) then some false
    else none
  else
    if genericSuccessIndicators.any (fun k => containsSub k output_lower) then some true
    else if genericErrorIndicators.any (fun k => containsSub k output_lower) then some false
    else none

/-! ## Startup wait — MCPClient._wait_for_server_start
(app.py lines 286-367).

One loop iteration of the source polls the process and then reads at most
one stderr line and one stdout line.  The sequence of observations the
loop makes is modelled as a list: a process-exit observation (poll not
None, with the stdout/stderr text that communicate() then returns), a
line read from stderr or stdout, or a quiet iteration with no output.
The Bool argument is the poll result when the timeout elapses (true:
still alive).  The result is the returned Bool together with the list of
diagnostic texts the exit path surfaces (the communicate() output that
the source prints as STDOUT/STDERR). -/

inductive StartObs where
  | exited (finalOut finalErr : String)
  | stderrLine (s : String)
  | stdoutLine (s : String)
  | quiet

/-- MCPClient._wait_for_server_start (app.py lines 286-367). -/
def wait_for_server_start (isNpx : Bool) : List StartObs → Bool → Bool × List String
  | [], aliveAtTimeout => (aliveAtTimeout, [])
  | .exited out err :: _, _ => (false, [out, err])
  | .stderrLine s :: rest, alive =>
    if s == "" then wait_for_server_start isNpx rest alive
    else
      match check_output_for_indicators isNpx (pyStrip s) with
      | some b => (b, [])
      | none => wait_for_server_start isNpx rest alive
  | .stdoutLine s :: rest, alive =>
    if s == "" then wait_for_server_start isNpx rest alive
    else
      match check_output_for_indicators isNpx (pyStrip s) with
      | some b => (b, [])
      | none => wait_for_server_start isNpx rest alive
  | .quiet :: rest, alive => wait_for_server_start isNpx rest alive

/-- An observation that neither classifies nor terminates the wait loop:
a quiet iteration, an empty read, or a line both tables miss. -/
def nonDeciding (isNpx : Bool) : StartObs → Bool
  | .exited _ _ => false
  | .quiet => true
  | .stderrLine s => s == "" || (check_output_for_indicators isNpx (pyStrip s)).isNone
  | .stdoutLine s => s == "" || (check_output_for_indicators isNpx (pyStrip s)).isNone

/-! ## JSON-RPC envelopes and the request sender — MCPClient.send_request
and MCPClient._send_stdio_request (app.py lines 379-492). -/

/-- A JSON-RPC envelope as the source builds it: jsonrpc tag, optional id,
method, optional params field. -/
structure Envelope where
  jsonrpc : String
  id : Option Nat
  method : String
  params : Option Json

/-- The params field of a built request: source guards with `if params:`,
so a missing or Python-falsy params value yields no field. -/
def paramsField (params : Option Json) : Option Json :=
  match params with
  | some p => if p.pyTruthy then some p else none
  | none => none

/-- Envelope construction of MCPClient.send_request (app.py lines 391-406):
notifications/initialized gets no id and leaves the counter alone; every
other method carries the current counter as id and increments it.
Returns the envelope and the counter after the call. -/
def build_http_request (method : String) (params : Option Json) (request_id : Nat) :
    Envelope × Nat :=
  if method == "notifications/initialized" then
    (⟨"2.0", none, method, paramsField params⟩, request_id)
  else
    (⟨"2.0", some request_id, method, paramsField params⟩, request_id + 1)

/-- Envelope construction of MCPClient._send_stdio_request (app.py lines
468-477): unconditionally carries the current counter as id and
increments it, whatever the method. -/
def build_stdio_request (method : String) (params : Option Json) (request_id : Nat) :
    Envelope × Nat :=
  (⟨"2.0", some request_id, method, paramsField params⟩, request_id + 1)

/-- Result of one stdio call: the returned or raised value, the counter
after the call, the stdout lines left unconsumed (none when the process
was absent), and the envelopes written to the child stdin. -/
structure StdioCallResult where
  result : Except String Json
  request_id : Nat
  stdoutRest : Option (List String)
  written : List Envelope

/-- MCPClient._send_stdio_request (app.py lines 454-492).  Raises when no
process is running; otherwise writes one envelope to the child stdin,
then blocks reading one line of the child stdout: end of stream raises,
an unparseable line raises, a parseable line is returned.  The child
stdout is modelled as the list of lines it will produce (empty list =
end of stream); jsonLoads stands for json.loads. -/
def send_stdio_request (jsonLoads : String → Except String Json)
    (method : String) (params : Option Json) (request_id : Nat)
    (proc : Option (List String)) : StdioCallResult :=
  match proc with
  | none => ⟨.error "MCP server not started", request_id, none, []⟩
  | some stdoutLines =>
    let built := build_stdio_request method params request_id
    match stdoutLines with
    | [] => ⟨.error "No response from server", built.2, some [], [built.1]⟩
    | line :: rest =>
      match jsonLoads line with
      | .error _ => ⟨.error "Invalid JSON response", built.2, some rest, [built.1]⟩
      | .ok j => ⟨.ok j, built.2, some rest, [built.1]⟩

/-- Outcome of the HTTP leg of send_request: a transport-level exception
(requests.exceptions.RequestException), or a response with a status code
and the outcome of parsing its body as JSON. -/
inductive HttpResult where
  | connError (msg : String)
  | response (status : Nat) (body : Except String Json)

/-- True when the HTTP leg failed: transport exception, status other than
200 (the source raises RuntimeError, caught by the generic handler), or a
body that does not parse as JSON. -/
def httpFailed : HttpResult → Bool
  | .connError _ => true
  | .response status body =>
    match body with
    | .ok _ => !(status == 200)
    | .error _ => true

/-- MCPClient.send_request (app.py lines 379-452).  Builds the envelope,
posts it over HTTP (the http argument maps the envelope to the outcome of
requests.post plus response.json()); on a 200 response with a parseable
body returns that body; on every failure of the HTTP leg falls back to
_send_stdio_request with the already-advanced counter, and the stdio
outcome (value or raised error) is what the caller sees. -/
def send_request (http : Envelope → HttpResult) (jsonLoads : String → Except String Json)
    (method : String) (params : Option Json) (request_id : Nat)
    (proc : Option (List String)) : StdioCallResult :=
  let built := build_http_request method params request_id
  match http built.1 with
  | .connError _ => send_stdio_request jsonLoads method params built.2 proc
  | .response status body =>
    if !(status == 200) then send_stdio_request jsonLoads method params built.2 proc
    else
      match body with
      | .ok j => ⟨.ok j, built.2, proc, []⟩
      | .error _ => send_stdio_request jsonLoads method params built.2 proc

/-! ## Request-identifier traces (claim C8).

A trace of envelope-building steps against one client: each step is an
id-allocating or notification build on the HTTP path, or a stdio-path
build.  The counter is threaded through; the envelopes are collected. -/

inductive SendOp where
  | viaHttp (method : String) (params : Option Json)
  | viaStdio (method : String) (params : Option Json)

/-- The envelope one step builds, with the counter after it. -/
def opEnvelope : SendOp → Nat → Envelope × Nat
  | .viaHttp m p, rid => build_http_request m p rid
  | .viaStdio m p, rid => build_stdio_request m p rid

/-- Run a trace of builds from a given counter value. -/
def runSendOps : List SendOp → Nat → List Envelope × Nat
  | [], rid => ([], rid)
  | op :: ops, rid =>
    let built := opEnvelope op rid
    let rest := runSendOps ops built.2
    (built.1 :: rest.1, rest.2)

/-- The ids of the id-bearing envelopes of a list, in order. -/
def envelopeIds (l : List Envelope) : List Nat := l.filterMap (·.id)

/-- MCPClient.__init__ (app.py line 125): self.request_id = 1. -/
def initialRequestId : Nat := 1

/-! ## Shutdown — MCPClient.stop_server (app.py lines 369-377).

The process handle is modelled as an optional pid.  The source reads:
`if self.process: self.process.terminate()` and then, outside that guard,
`try: self.process.wait(timeout=5) except subprocess.TimeoutExpired:
self.process.kill()`, finally `self.process = None`.  When the handle is
already None the wait call raises AttributeError (NoneType has no
attribute wait), which no except clause catches, so the call raises. -/
def stop_server : Option Nat → Except String (Option Nat)
  | some _ => .ok none
  | none => .error "AttributeError: NoneType object has no attribute wait"

/-! ## Tool calls — MCPClient.call_tool (app.py lines 551-578).

The respond argument stands for self.send_request (method, params to
returned-or-raised value).  The second component of the result records
the requests the function submits, making the forwarding observable:
the source builds the params dict and calls send_request unconditionally,
never consulting the cached self.tools catalog. -/

/-- The params dict call_tool builds (app.py lines 563-566). -/
def build_call_tool_params (tool_name : String) (arguments : Json) : Json :=
  .obj [("name", .str tool_name), ("arguments", arguments)]

/-- MCPClient.call_tool (app.py lines 551-578): issues tools/call with the
given name and arguments; a response carrying a result field yields that
field, any other response or a raised error yields an empty dict. -/
def call_tool (respond : String → Option Json → Except String Json)
    (tools : List String) (tool_name : String) (arguments : Json) :
    Json × List (String × Option Json) :=
  let params := build_call_tool_params tool_name arguments
  let issued := [("tools/call", some params)]
  match respond "tools/call" (some params) with
  | .error _ => (.obj [], issued)
  | .ok resp =>
    match resp.getField "result" with
    | some r => (r, issued)
    | none => (.obj [], issued)

/-- The claimed behavior, stated from the spec words for comparison:
validate the name against the cached catalog first and fail with
UnknownTool, issuing no request, when it is absent. -/
def call_tool_specClaim (respond : String → Option Json → Except String Json)
    (tools : List String) (tool_name : String) (arguments : Json) :
    Except String Json × List (String × Option Json) :=
  if tool_name ∈ tools then
    let params := build_call_tool_params tool_name arguments
    (respond "tools/call" (some params), [("tools/call", some params)])
  else
    (.error "UnknownTool", [])

/-! ## Relay handler — MCPProxyHandler.forward_to_mcp and do_POST
(app.py lines 706-782). -/

/-- What one forward_to_mcp call produces: the JSON value returned to
do_POST, the child stdout lines left unconsumed, and the requests written
to the child stdin during the call. -/
structure ForwardOut where
  response : Json
  stdoutRest : List String
  written : List Json

/-- MCPProxyHandler.forward_to_mcp (app.py lines 750-782).  With no
process reference or an exited process it returns an error dict without
touching the pipes.  Otherwise it writes the request to the child stdin,
then: a request whose method field is exactly notifications/initialized
is answered with a synthesized result dict and nothing is read; any other
request blocks reading one line of the child stdout — end of stream
yields an error dict, an unparseable line raises json.JSONDecodeError
which the in-function handler turns into a Communication error dict, and
a parseable line is returned as the response.  A missing method key
raises KeyError after the write, likewise caught in-function.
jsonLoads stands for json.loads applied to the stripped line. -/
def forward_to_mcp (jsonLoads : String → Except String Json)
    (procPresent procExited : Bool) (stdoutLines : List String)
    (request : Json) : ForwardOut :=
  if !procPresent then
    ⟨.obj [("error", .str "MCP server not available")], stdoutLines, []⟩
  else if procExited then
    ⟨.obj [("error", .str "MCP server process has exited")], stdoutLines, []⟩
  else
    match request.getField "method" with
    | none =>
      ⟨.obj [("error", .str "Communication error: method")], stdoutLines, [request]⟩
    | some (.str s) =>
      if s == "notifications/initialized" then
        ⟨.obj [("result", .str "initialized")], stdoutLines, [request]⟩
      else
        match stdoutLines with
        | [] => ⟨.obj [("error", .str "No response from MCP server")], [], [request]⟩
        | line :: rest =>
          match jsonLoads (pyStrip line) with
          | .ok j => ⟨j, rest, [request]⟩
          | .error e =>
            ⟨.obj [("error", .str ("Communication error: " ++ e))], rest, [request]⟩
    | some _ =>
      match stdoutLines with
      | [] => ⟨.obj [("error", .str "No response from MCP server")], [], [request]⟩
      | line :: rest =>
        match jsonLoads (pyStrip line) with
        | .ok j => ⟨j, rest, [request]⟩
        | .error e =>
          ⟨.obj [("error", .str ("Communication error: " ++ e))], rest, [request]⟩

/-- MCPProxyHandler.do_POST (app.py lines 706-740).  The body argument is
the outcome of the failable prefix of the try block: reading
Content-Length and parsing the posted bytes as JSON, with the exception
text on failure.  A path other than /mcp gets 404; a body-parsing exception is
caught and answered 500 with an error/type dict; otherwise the parsed
request is forwarded and the forward result is answered with status 200.
The result is status code, body, and remaining child stdout lines. -/
def do_POST (jsonLoads : String → Except String Json) (path : String)
    (body : Except String Json) (procPresent procExited : Bool)
    (stdoutLines : List String) : Nat × Json × List String :=
  if path == "/mcp" then
    match body with
    | .error e =>
      (500, .obj [("error", .str e), ("type", .str "proxy_error")], stdoutLines)
    | .ok request =>
      let out := forward_to_mcp jsonLoads procPresent procExited stdoutLines request
      (200, out.response, out.stdoutRest)
  else
    (404, .obj [("error", .str ("Path " ++ path ++ " not found"))], stdoutLines)

/-! ## Concurrent stdio access (claim C1).

Nothing in the source takes a lock: MCPClient._send_stdio_request
(app.py lines 454-492, reached by the stdio fallback of the main flow)
and MCPProxyHandler.forward_to_mcp (app.py lines 750-782, run on the
relay listener thread) each perform stdin.write followed by a blocking
stdout.readline on the same pipes of the one child process, with no
synchronization between the two threads.  The model below has two
callers, each executing its write action then its read action; the child
consumes requests in write order and produces one response per request,
tagged with the request it answers, in the same order; a read hands the
caller the front response.  A schedule is any interleaving of the two
write-then-read programs. -/

inductive Act where
  | wr (t : Fin 2)
  | rd (t : Fin 2)
deriving DecidableEq

/-- The program of one caller: write its request, then read one line. -/
def callerScript (t : Fin 2) : List Act := [.wr t, .rd t]

/-- Is the first list an interleaving (shuffle) of the other two? -/
def isMerge : List Act → List Act → List Act → Bool
  | [], as, bs => as.isEmpty && bs.isEmpty
  | x :: s, as, bs =>
    (match as with
     | a :: as2 => x == a && isMerge s as2 bs
     | [] => false)
    ||
    (match bs with
     | b :: bs2 => x == b && isMerge s as bs2
     | [] => false)

/-- A schedule the two unsynchronized threads can produce: any
interleaving of the two caller programs. -/
def validSched (s : List Act) : Bool :=
  isMerge s (callerScript 0) (callerScript 1)

/-- Pipe state: responses the child has queued (front is next to be
read), tagged with the request they answer, and what each caller has
received. -/
structure PipeState where
  pending : List (Fin 2)
  recv0 : Option (Fin 2)
  recv1 : Option (Fin 2)

/-- One action against the shared pipes: a write queues the response to
that request behind the earlier ones; a read pops the front response
into the reading caller. -/
def pipeStep (s : PipeState) : Act → PipeState
  | .wr t => ⟨s.pending ++ [t], s.recv0, s.recv1⟩
  | .rd t =>
    match s.pending with
    | [] => s
    | p :: rest =>
      if t = 0 then ⟨rest, some p, s.recv1⟩ else ⟨rest, s.recv0, some p⟩

/-- Run a schedule from empty pipes. -/
def runSched (acts : List Act) : PipeState :=
  acts.foldl pipeStep ⟨[], none, none⟩

/-! ## Theorems -/

/-- Claim C4: the readiness classifier is a pure function of the output
line and the launch mechanism.  A line containing a success-indicator
keyword of the selected table classifies as success (some true) and makes
the startup wait return Ready immediately; a line containing only an
error-indicator keyword classifies as failure (some false); a line
containing neither classifies as none, so polling continues; and the npx
launch mechanism selects a strictly larger success table and a table
containing every generic error keyword. -/
theorem c4_readiness_classifier :
    (∀ (isNpx : Bool) (line : String),
      (∃ k ∈ successIndicators isNpx, containsSub k (lowerStr line) = true) →
        check_output_for_indicators isNpx line = some true) ∧
    (∀ (isNpx : Bool) (line : String),
      (∀ k ∈ successIndicators isNpx, containsSub k (lowerStr line) = false) →
      (∃ k ∈ errorIndicators isNpx, containsSub k (lowerStr line) = true) →
        check_output_for_indicators isNpx line = some false) ∧
    (∀ (isNpx : Bool) (line : String),
      (∀ k ∈ successIndicators isNpx, containsSub k (lowerStr line) = false) →
      (∀ k ∈ errorIndicators isNpx, containsSub k (lowerStr line) = false) →
        check_output_for_indicators isNpx line = none) ∧
    (∀ k ∈ genericSuccessIndicators, k ∈ npxSuccessIndicators) ∧
    (∀ k ∈ genericErrorIndicators, k ∈ npxErrorIndicators) ∧
    ("node_modules" ∈ npxSuccessIndicators ∧ "node_modules" ∉ genericSuccessIndicators) ∧
    (∀ (isNpx : Bool) (b : Bool) (s : String) (rest : List StartObs) (alive : Bool),
      (s == "") = false →
      check_output_for_indicators isNpx (pyStrip s) = some b →
      wait_for_server_start isNpx (.stdoutLine s :: rest) alive = (b, [])) := by
  refine ⟨?_, ?_, ?_, by decide, by decide, by decide, ?_⟩
  · intro isNpx line h
    have hs : (successIndicators isNpx).any (fun k => containsSub k (lowerStr line)) = true := by
      rw [List.any_eq_true]
      obtain ⟨k, hk, hki⟩ := h
      exact ⟨k, hk, hki⟩
    cases isNpx
    · simp only [successIndicators, Bool.false_eq_true, if_false] at hs
      simp [check_output_for_indicators, hs]
    · simp only [successIndicators, if_true] at hs
      simp [check_output_for_indicators, hs]
  · intro isNpx line hn h
    have hs : (successIndicators isNpx).any (fun k => containsSub k (lowerStr line)) = false := by
      rw [List.any_eq_false]
      intro k hk
      simp [hn k hk]
    have he : (errorIndicators isNpx).any (fun k => containsSub k (lowerStr line)) = true := by
      rw [List.any_eq_true]
      obtain ⟨k, hk, hki⟩ := h
      exact ⟨k, hk, hki⟩
    cases isNpx
    · simp only [successIndicators, errorIndicators, Bool.false_eq_true, if_false] at hs he
      simp [check_output_for_indicators, hs, he]
    · simp only [successIndicators, errorIndicators, if_true] at hs he
      simp [check_output_for_indicators, hs, he]
  · intro isNpx line hn hne
    have hs : (successIndicators isNpx).any (fun k => containsSub k (lowerStr line)) = false := by
      rw [List.any_eq_false]
      intro k hk
      simp [hn k hk]
    have he : (errorIndicators isNpx).any (fun k => containsSub k (lowerStr line)) = false := by
      rw [List.any_eq_false]
      intro k hk
      simp [hne k hk]
    cases isNpx
    · simp only [successIndicators, errorIndicators, Bool.false_eq_true, if_false] at hs he
      simp [check_output_for_indicators, hs, he]
    · simp only [successIndicators, errorIndicators, if_true] at hs he
      simp [check_output_for_indicators, hs, he]
  · intro isNpx b s rest alive hse hcheck
    simp [wait_for_server_start, hse, hcheck]

/-- Witness for C4: concrete lines exercising every classification branch
and the immediate Ready return of the wait loop. -/
theorem c4_readiness_classifier_witness :
    check_output_for_indicators true "Dependencies in node_modules linked" = some true ∧
    check_output_for_indicators false "npm error something broke" = some false ∧
    check_output_for_indicators false "warming up caches" = none ∧
    wait_for_server_start false [.stdoutLine "MCP Server started"] false = (true, []) := by
  refine ⟨?_, ?_, ?_, ?_⟩
  · exact c4_readiness_classifier.1 true _ ⟨"node_modules", by decide, by decide⟩
  · exact c4_readiness_classifier.2.1 false _ (by decide) ⟨"npm error", by decide, by decide⟩
  · exact c4_readiness_classifier.2.2.1 false _ (by decide) (by decide)
  · exact c4_readiness_classifier.2.2.2.2.2.2 false true "MCP Server started" [] false
      (by decide) (by decide)

/-- Claim C5: if every observation up to the readiness timeout neither
classifies nor shows an exit, the wait returns the liveness of the final
poll — in particular Ready (true) when the process is still alive; if the
process exits before any classification match, the wait returns failure
and surfaces the remaining stdout/stderr for diagnostics. -/
theorem c5_wait_outcomes :
    (∀ (isNpx : Bool) (obs : List StartObs) (alive : Bool),
      (∀ o ∈ obs, nonDeciding isNpx o = true) →
      wait_for_server_start isNpx obs alive = (alive, [])) ∧
    (∀ (isNpx : Bool) (pre rest : List StartObs) (out err : String) (alive : Bool),
      (∀ o ∈ pre, nonDeciding isNpx o = true) →
      wait_for_server_start isNpx (pre ++ .exited out err :: rest) alive
        = (false, [out, err])) := by
  constructor
  · intro isNpx obs alive
    induction obs with
    | nil => intro _; rfl
    | cons o rest ih =>
      intro h
      have ho := h o (by simp)
      have hrest : ∀ x ∈ rest, nonDeciding isNpx x = true := fun x hx => h x (by simp [hx])
      cases o with
      | exited out err => simp [nonDeciding] at ho
      | quiet => simpa [wait_for_server_start] using ih hrest
      | stderrLine s =>
        by_cases hse : (s == "") = true
        · simp only [wait_for_server_start, hse, if_true]
          exact ih hrest
        · have hck : check_output_for_indicators isNpx (pyStrip s) = none := by
            simp only [nonDeciding, Bool.or_eq_true, hse, Bool.false_eq_true, false_or,
              Option.isNone_iff_eq_none] at ho
            exact ho
          simp only [wait_for_server_start, hse, Bool.false_eq_true, if_false, hck]
          exact ih hrest
      | stdoutLine s =>
        by_cases hse : (s == "") = true
        · simp only [wait_for_server_start, hse, if_true]
          exact ih hrest
        · have hck : check_output_for_indicators isNpx (pyStrip s) = none := by
            simp only [nonDeciding, Bool.or_eq_true, hse, Bool.false_eq_true, false_or,
              Option.isNone_iff_eq_none] at ho
            exact ho
          simp only [wait_for_server_start, hse, Bool.false_eq_true, if_false, hck]
          exact ih hrest
  · intro isNpx pre rest out err alive
    induction pre with
    | nil => intro _; rfl
    | cons o pre2 ih =>
      intro h
      have ho := h o (by simp)
      have hpre : ∀ x ∈ pre2, nonDeciding isNpx x = true := fun x hx => h x (by simp [hx])
      cases o with
      | exited o2 e2 => simp [nonDeciding] at ho
      | quiet => simpa [wait_for_server_start] using ih hpre
      | stderrLine s =>
        by_cases hse : (s == "") = true
        · simp only [List.cons_append, wait_for_server_start, hse, if_true]
          exact ih hpre
        · have hck : check_output_for_indicators isNpx (pyStrip s) = none := by
            simp only [nonDeciding, Bool.or_eq_true, hse, Bool.false_eq_true, false_or,
              Option.isNone_iff_eq_none] at ho
            exact ho
          simp only [List.cons_append, wait_for_server_start, hse, Bool.false_eq_true,
            if_false, hck]
          exact ih hpre
      | stdoutLine s =>
        by_cases hse : (s == "") = true
        · simp only [List.cons_append, wait_for_server_start, hse, if_true]
          exact ih hpre
        · have hck : check_output_for_indicators isNpx (pyStrip s) = none := by
            simp only [nonDeciding, Bool.or_eq_true, hse, Bool.false_eq_true, false_or,
              Option.isNone_iff_eq_none] at ho
            exact ho
          simp only [List.cons_append, wait_for_server_start, hse, Bool.false_eq_true,
            if_false, hck]
          exact ih hpre

/-- Witness for C5: a silent startup that times out alive returns Ready;
an exit after one unclassified line returns failure with the diagnostics. -/
theorem c5_wait_outcomes_witness :
    wait_for_server_start true [.quiet, .stderrLine "fetching deps"] true = (true, []) ∧
    wait_for_server_start false ([.stdoutLine "hello"] ++ [.exited "outtext" "errtext"]) false
      = (false, ["outtext", "errtext"]) := by
  constructor
  · exact c5_wait_outcomes.1 true [.quiet, .stderrLine "fetching deps"] true (by decide)
  · exact c5_wait_outcomes.2 false [.stdoutLine "hello"] [] "outtext" "errtext" false (by decide)

/-- Claim C6 (code bug): stopping an already-stopped client is not a
no-op.  The first stop succeeds and clears the handle, but a second call
reaches self.process.wait with the handle already None — the wait call
sits outside the `if self.process:` guard and its except clause only
catches TimeoutExpired — so the call raises AttributeError instead of
doing nothing. -/
theorem c6_stop_server_raises_on_second_call :
    stop_server (some 1234) = .ok none ∧
    stop_server none = .error "AttributeError: NoneType object has no attribute wait" :=
  ⟨rfl, rfl⟩

/-- Claim C2: whenever the HTTP leg fails — transport exception, status
other than 200, or a body that is not parseable JSON — send_request
returns exactly the outcome of the stdio fallback on the same method and
params (with the counter as already advanced by the HTTP build), so a
relay-level failure reaches the caller only if the stdio fallback also
fails. -/
theorem c2_http_failure_falls_back_to_stdio :
    ∀ (http : Envelope → HttpResult) (jsonLoads : String → Except String Json)
      (method : String) (params : Option Json) (request_id : Nat)
      (proc : Option (List String)),
      httpFailed (http (build_http_request method params request_id).1) = true →
      send_request http jsonLoads method params request_id proc
        = send_stdio_request jsonLoads method params
            (build_http_request method params request_id).2 proc := by
  intro http g method params rid proc h
  cases hh : http (build_http_request method params rid).1 with
  | connError m => simp [send_request, hh]
  | response status body =>
    rw [hh] at h
    cases body with
    | error e => simp [send_request, hh]
    | ok j =>
      have hst : (status == 200) = false := by
        simp only [httpFailed, Bool.not_eq_eq_eq_not, Bool.not_true] at h
        exact h
      simp [send_request, hh, hst]

/-- Witness for C2: a refused connection falls back to stdio and returns
the stdio outcome. -/
theorem c2_fallback_witness :
    send_request (fun _ => .connError "connection refused") (fun _ => .ok .null)
        "tools/list" (some (.obj [])) 1 (some ["line"])
      = send_stdio_request (fun _ => .ok .null) "tools/list" (some (.obj [])) 2
          (some ["line"]) :=
  c2_http_failure_falls_back_to_stdio _ _ _ _ _ _ rfl

/-- Claim C7 counterexample: on the stdio fallback path the claim fails.
The stdio envelope built for notifications/initialized carries an id, the
counter is incremented, and a response line is consumed from the child
stdout even though the message is a notification. -/
theorem c7_stdio_notification_counterexample :
    (build_stdio_request "notifications/initialized" none 1).1.id = some 1 ∧
    ¬ ((build_stdio_request "notifications/initialized" none 1).1.id = none) ∧
    (build_stdio_request "notifications/initialized" none 1).2 = 2 ∧
    (send_stdio_request (fun _ => .ok .null) "notifications/initialized" none 1
        (some ["response line"])).stdoutRest = some [] := by
  refine ⟨rfl, by decide, rfl, rfl⟩

/-- Claim C7 as amended: on the HTTP path the envelope for a
notifications/initialized call omits the id field and leaves the counter
untouched; but on the stdio fallback path the envelope unconditionally
carries the current counter as id, the counter is incremented, and one
line of the child stdout is awaited — at end of stream the call raises
No response from server even for a notification. -/
theorem c7_notification_paths_amended :
    (∀ (params : Option Json) (rid : Nat),
      (build_http_request "notifications/initialized" params rid).1.id = none ∧
      (build_http_request "notifications/initialized" params rid).2 = rid) ∧
    (∀ (params : Option Json) (rid : Nat),
      (build_stdio_request "notifications/initialized" params rid).1.id = some rid ∧
      (build_stdio_request "notifications/initialized" params rid).2 = rid + 1) ∧
    (∀ (g : String → Except String Json) (params : Option Json) (rid : Nat)
        (lines : List String),
      (send_stdio_request g "notifications/initialized" params rid (some lines)).stdoutRest
        = some lines.tail) ∧
    (∀ (g : String → Except String Json) (params : Option Json) (rid : Nat),
      (send_stdio_request g "notifications/initialized" params rid (some [])).result
        = .error "No response from server") := by
  refine ⟨fun params rid => ⟨rfl, rfl⟩, fun params rid => ⟨rfl, rfl⟩, ?_, fun g params rid => rfl⟩
  intro g params rid lines
  cases lines with
  | nil => rfl
  | cons line rest =>
    cases h : g line with
    | ok j => simp [send_stdio_request, h]
    | error e => simp [send_stdio_request, h]

/-- Counter never decreases across one envelope build. -/
theorem opEnvelope_counter_le (op : SendOp) (rid : Nat) : rid ≤ (opEnvelope op rid).2 := by
  cases op with
  | viaHttp m p =>
    by_cases h : (m == "notifications/initialized") = true <;>
      simp [opEnvelope, build_http_request, h]
  | viaStdio m p => simp [opEnvelope, build_stdio_request]

/-- The id of a built envelope, when present, is the counter before the
build, and the counter after the build is strictly larger. -/
theorem opEnvelope_id_bounds (op : SendOp) (rid : Nat) :
    ∀ i ∈ (opEnvelope op rid).1.id, rid ≤ i ∧ i < (opEnvelope op rid).2 := by
  intro i hi
  cases op with
  | viaHttp m p =>
    by_cases h : (m == "notifications/initialized") = true
    · simp [opEnvelope, build_http_request, h] at hi
    · simp only [opEnvelope, build_http_request, h, Bool.false_eq_true, if_false,
        Option.mem_def, Option.some.injEq] at hi
      subst hi
      refine ⟨le_refl _, ?_⟩
      simp [opEnvelope, build_http_request, h]
  | viaStdio m p =>
    simp only [opEnvelope, build_stdio_request, Option.mem_def, Option.some.injEq] at hi
    subst hi
    exact ⟨le_refl _, Nat.lt_succ_self _⟩

/-- Counter never decreases across a trace. -/
theorem runSendOps_counter_le :
    ∀ (ops : List SendOp) (rid : Nat), rid ≤ (runSendOps ops rid).2 := by
  intro ops
  induction ops with
  | nil => intro rid; exact le_refl _
  | cons op ops ih =>
    intro rid
    exact le_trans (opEnvelope_counter_le op rid) (ih (opEnvelope op rid).2)

/-- Every id in a trace lies between the starting counter and the final
counter. -/
theorem runSendOps_id_bounds :
    ∀ (ops : List SendOp) (rid : Nat),
      ∀ i ∈ envelopeIds (runSendOps ops rid).1, rid ≤ i ∧ i < (runSendOps ops rid).2 := by
  intro ops
  induction ops with
  | nil => intro rid i hi; simp [runSendOps, envelopeIds] at hi
  | cons op ops ih =>
    intro rid i hi
    simp only [runSendOps, envelopeIds, List.filterMap_cons] at hi
    have hfinal : (runSendOps (op :: ops) rid).2 = (runSendOps ops (opEnvelope op rid).2).2 := rfl
    rw [hfinal]
    cases hid : (opEnvelope op rid).1.id with
    | none =>
      rw [hid] at hi
      have hb := ih (opEnvelope op rid).2 i hi
      exact ⟨le_trans (opEnvelope_counter_le op rid) hb.1, hb.2⟩
    | some j =>
      rw [hid] at hi
      rcases List.mem_cons.mp hi with hij | hi2
      · subst hij
        have hb := opEnvelope_id_bounds op rid i (by rw [hid]; rfl)
        exact ⟨hb.1, lt_of_lt_of_le hb.2 (runSendOps_counter_le ops (opEnvelope op rid).2)⟩
      · have hb := ih (opEnvelope op rid).2 i hi2
        exact ⟨le_trans (opEnvelope_counter_le op rid) hb.1, hb.2⟩

/-- Ids along a trace are strictly increasing. -/
theorem runSendOps_ids_pairwise :
    ∀ (ops : List SendOp) (rid : Nat),
      (envelopeIds (runSendOps ops rid).1).Pairwise (· < ·) := by
  intro ops
  induction ops with
  | nil => intro rid; simp [runSendOps, envelopeIds]
  | cons op ops ih =>
    intro rid
    simp only [runSendOps, envelopeIds, List.filterMap_cons]
    cases hid : (opEnvelope op rid).1.id with
    | none => exact ih (opEnvelope op rid).2
    | some j =>
      rw [List.pairwise_cons]
      refine ⟨?_, ih (opEnvelope op rid).2⟩
      intro b hb
      have hj := opEnvelope_id_bounds op rid j (by rw [hid]; rfl)
      have hbb := runSendOps_id_bounds ops (opEnvelope op rid).2 b hb
      exact lt_of_lt_of_le hj.2 hbb.1

/-- Claim C8: along any trace of envelope builds the ids of the
id-bearing envelopes are pairwise strictly increasing (so never reused),
the counter of a freshly constructed client starts at 1, and no build
ever decreases the counter — the counter returns to 1 only through a new
construction. -/
theorem c8_request_ids_strictly_increase :
    (∀ ops : List SendOp,
      (envelopeIds (runSendOps ops initialRequestId).1).Pairwise (· < ·)) ∧
    initialRequestId = 1 ∧
    (∀ (ops : List SendOp) (rid : Nat), rid ≤ (runSendOps ops rid).2) :=
  ⟨fun ops => runSendOps_ids_pairwise ops initialRequestId, rfl, runSendOps_counter_le⟩

/-- Claim C9 counterexample: with an empty cached catalog and a tool name
absent from it, call_tool still issues the tools/call request and returns
whatever the remote side answers, while the claimed behavior would issue
nothing and fail with UnknownTool. -/
theorem c9_no_validation_counterexample :
    ("ghost" ∉ ([] : List String)) ∧
    (call_tool (fun _ _ => .ok (.obj [("result", .str "remote ran")])) [] "ghost"
        (.obj [])).2
      = [("tools/call", some (build_call_tool_params "ghost" (.obj [])))] ∧
    (call_tool (fun _ _ => .ok (.obj [("result", .str "remote ran")])) [] "ghost"
        (.obj [])).1
      = .str "remote ran" ∧
    (call_tool_specClaim (fun _ _ => .ok (.obj [("result", .str "remote ran")])) [] "ghost"
        (.obj [])).2
      = [] := by
  refine ⟨by simp, rfl, rfl, rfl⟩

/-- Claim C9 as amended: call_tool performs no local validation against
the cached catalog.  For every catalog and every name it issues exactly
one tools/call request with the given name and arguments; a response
carrying a result field yields that field, a response without one or a
raised error yields an empty dict — rejection of unknown names is left
entirely to the remote side. -/
theorem c9_call_tool_always_forwards :
    (∀ (respond : String → Option Json → Except String Json) (tools : List String)
        (name : String) (args : Json),
      (call_tool respond tools name args).2
        = [("tools/call", some (build_call_tool_params name args))]) ∧
    (∀ (respond : String → Option Json → Except String Json) (tools : List String)
        (name : String) (args : Json) (r j : Json),
      respond "tools/call" (some (build_call_tool_params name args)) = .ok r →
      r.getField "result" = some j →
      (call_tool respond tools name args).1 = j) ∧
    (∀ (respond : String → Option Json → Except String Json) (tools : List String)
        (name : String) (args : Json) (e : String),
      respond "tools/call" (some (build_call_tool_params name args)) = .error e →
      (call_tool respond tools name args).1 = .obj []) := by
  refine ⟨?_, ?_, ?_⟩
  · intro respond tools name args
    cases h : respond "tools/call" (some (build_call_tool_params name args)) with
    | error e => simp [call_tool, h]
    | ok r =>
      cases hg : r.getField "result" with
      | none => simp [call_tool, h, hg]
      | some j => simp [call_tool, h, hg]
  · intro respond tools name args r j h hg
    simp [call_tool, h, hg]
  · intro respond tools name args e h
    simp [call_tool, h]

/-- Witness for C9: a concrete remote response with a result field is
forwarded and returned unchanged, regardless of the catalog. -/
theorem c9_call_tool_always_forwards_witness :
    (call_tool (fun _ _ => .ok (.obj [("result", .num 7)])) ["alpha"] "beta" (.obj [])).2
      = [("tools/call", some (build_call_tool_params "beta" (.obj [])))] ∧
    (call_tool (fun _ _ => .ok (.obj [("result", .num 7)])) ["alpha"] "beta" (.obj [])).1
      = .num 7 :=
  ⟨c9_call_tool_always_forwards.1 _ ["alpha"] "beta" _,
   c9_call_tool_always_forwards.2.1 _ ["alpha"] "beta" _ _ _ rfl rfl⟩

/-- Claim C10: a relay request whose method field is exactly
notifications/initialized is written to the child stdin, nothing is read
from the child stdout, and the HTTP caller gets status 200 with the
synthesized result-initialized body; a request with any other method
value blocks reading one line of the child stdout and, when that line
parses, returns its JSON as the response body. -/
theorem c10_forward_notifications_initialized :
    (∀ (g : String → Except String Json) (lines : List String) (req : Json),
      req.getField "method" = some (.str "notifications/initialized") →
      forward_to_mcp g true false lines req
        = ⟨.obj [("result", .str "initialized")], lines, [req]⟩) ∧
    (∀ (g : String → Except String Json) (lines : List String) (req : Json),
      req.getField "method" = some (.str "notifications/initialized") →
      do_POST g "/mcp" (.ok req) true false lines
        = (200, .obj [("result", .str "initialized")], lines)) ∧
    (∀ (g : String → Except String Json) (line : String) (rest : List String)
        (req m j : Json),
      req.getField "method" = some m →
      m ≠ .str "notifications/initialized" →
      g (pyStrip line) = .ok j →
      forward_to_mcp g true false (line :: rest) req = ⟨j, rest, [req]⟩) := by
  refine ⟨?_, ?_, ?_⟩
  · intro g lines req hm
    simp [forward_to_mcp, hm]
  · intro g lines req hm
    simp [do_POST, forward_to_mcp, hm]
  · intro g line rest req m j hm hne hg
    cases m with
    | str s =>
      have hs : (s == "notifications/initialized") = false := by
        rcases Bool.eq_false_or_eq_true (s == "notifications/initialized") with h | h
        · exact absurd (congrArg Json.str (eq_of_beq h)) hne
        · exact h
      simp [forward_to_mcp, hm, hs, hg]
    | null => simp [forward_to_mcp, hm, hg]
    | bool b => simp [forward_to_mcp, hm, hg]
    | num n => simp [forward_to_mcp, hm, hg]
    | arr l => simp [forward_to_mcp, hm, hg]
    | obj l => simp [forward_to_mcp, hm, hg]

/-- Witness for C10: a concrete initialized notification is answered from
the synthesized body with the stdout untouched, and a concrete tools/list
request consumes one stdout line and returns its parsed JSON. -/
theorem c10_forward_witness :
    forward_to_mcp (fun _ => .ok .null) true false ["pending"]
        (.obj [("jsonrpc", .str "2.0"), ("method", .str "notifications/initialized")])
      = ⟨.obj [("result", .str "initialized")], ["pending"],
         [.obj [("jsonrpc", .str "2.0"), ("method", .str "notifications/initialized")]]⟩ ∧
    do_POST (fun _ => .ok .null) "/mcp"
        (.ok (.obj [("method", .str "notifications/initialized")])) true false []
      = (200, .obj [("result", .str "initialized")], []) ∧
    forward_to_mcp (fun _ => .ok (.obj [("id", .num 1)])) true false ["resp line"]
        (.obj [("method", .str "tools/list"), ("id", .num 1)])
      = ⟨.obj [("id", .num 1)], [], [.obj [("method", .str "tools/list"), ("id", .num 1)]]⟩ := by
  refine ⟨c10_forward_notifications_initialized.1 _ _ _ rfl,
    c10_forward_notifications_initialized.2.1 _ _ _ rfl,
    c10_forward_notifications_initialized.2.2 _ _ _ _ _ _ rfl ?_ rfl⟩
  intro h
  injection h with h2
  exact absurd h2 (by decide)

/-- Claim C3 counterexample: an exception raised while forwarding (here
the child answering a line that is not JSON) is not answered with a
500-class status and an error/type body — the handler answers 200 and the
body has no type field. -/
theorem c3_forwarding_error_answered_200 :
    do_POST (fun _ => .error "Expecting value") "/mcp"
        (.ok (.obj [("method", .str "tools/list"), ("id", .num 1)])) true false
        ["not json"]
      = (200, .obj [("error", .str "Communication error: Expecting value")], []) ∧
    (Json.obj [("error", .str "Communication error: Expecting value")]).getField "type"
      = none ∧
    ¬ (500 ≤ 200) :=
  ⟨rfl, rfl, by decide⟩

/-- Claim C3 as amended: an exception while parsing the POST body is
caught and answered 500 with the structured error/type body; an exception
while forwarding is caught inside forward_to_mcp and answered as a JSON
error body with status 200 and no type field; on every input the handler
returns a response with status 200, 404 or 500 — no exception propagates
out of the handler. -/
theorem c3_error_handling_amended :
    (∀ (g : String → Except String Json) (e : String) (pp pe : Bool)
        (lines : List String),
      do_POST g "/mcp" (.error e) pp pe lines
        = (500, .obj [("error", .str e), ("type", .str "proxy_error")], lines)) ∧
    (∀ (g : String → Except String Json) (req : Json) (pp pe : Bool)
        (lines : List String),
      (do_POST g "/mcp" (.ok req) pp pe lines).1 = 200) ∧
    (∀ (g : String → Except String Json) (path : String) (body : Except String Json)
        (pp pe : Bool) (lines : List String),
      (do_POST g path body pp pe lines).1 = 200 ∨ (do_POST g path body pp pe lines).1 = 404
        ∨ (do_POST g path body pp pe lines).1 = 500) := by
  refine ⟨fun g e pp pe lines => rfl, fun g req pp pe lines => rfl, ?_⟩
  intro g path body pp pe lines
  by_cases hp : (path == "/mcp") = true
  · cases body with
    | error e => right; right; simp [do_POST, hp]
    | ok req => left; simp [do_POST, hp]
  · right; left
    simp only [Bool.not_eq_true] at hp
    simp [do_POST, hp]

/-- Witness for C3 amended: a concrete malformed body is answered 500
with the error/type body. -/
theorem c3_error_handling_amended_witness :
    do_POST (fun _ => .ok .null) "/mcp" (.error "Expecting value") true false []
      = (500, .obj [("error", .str "Expecting value"), ("type", .str "proxy_error")], []) :=
  c3_error_handling_amended.1 _ "Expecting value" true false []

/-- Claim C1 counterexample: the source holds no lock across the
write-then-read sequences, so the schedule write0, write1, read1, read0
is a valid interleaving of the two caller programs, and in it caller 1
receives the response to the request of caller 0 — the claimed
serialization and response-ownership property fails. -/
theorem c1_serialization_counterexample :
    validSched [.wr 0, .wr 1, .rd 1, .rd 0] = true ∧
    (runSched [.wr 0, .wr 1, .rd 1, .rd 0]).recv1 = some 0 ∧
    ¬ ((runSched [.wr 0, .wr 1, .rd 1, .rd 0]).recv1 = some 1) := by
  decide

/-- Claim C1 as amended: no mutual exclusion is enforced — any
interleaving of the two unsynchronized write-then-read callers is a
possible schedule.  When the two write-read pairs happen not to
interleave (either serialization order), each caller receives the
response to its own request; but an interleaved valid schedule exists in
which a caller receives the response to the request of the other. -/
theorem c1_no_lock_interleaving_possible :
    ((runSched [.wr 0, .rd 0, .wr 1, .rd 1]).recv0 = some 0 ∧
     (runSched [.wr 0, .rd 0, .wr 1, .rd 1]).recv1 = some 1 ∧
     validSched [.wr 0, .rd 0, .wr 1, .rd 1] = true) ∧
    ((runSched [.wr 1, .rd 1, .wr 0, .rd 0]).recv0 = some 0 ∧
     (runSched [.wr 1, .rd 1, .wr 0, .rd 0]).recv1 = some 1 ∧
     validSched [.wr 1, .rd 1, .wr 0, .rd 0] = true) ∧
    (∃ s : List Act, validSched s = true ∧ (runSched s).recv1 = some 0) := by
  refine ⟨by decide, by decide, ⟨[.wr 0, .wr 1, .rd 1, .rd 0], by decide⟩⟩
